import Mathlib

/-!
Verification development for the native core of the `cameras` desktop
application (Rust, `src-tauri`).  The definitions below are shallow
embeddings of the Rust source: pure functions become Lean functions,
byte buffers become `List Nat` (with byte-ness stated as `< 256`),
`i32` arithmetic is carried out over `Int`, and operations that can
panic in Rust (index out of bounds, `% 0`) return `Option`/`Except`
values where `none`/`.error` models the panic.  External collaborators
(the OS, serde JSON parsing, the JPEG encoder, base64) are passed in as
function parameters, matching the spec's boundary treatment.
-/

/-! ## Pixel converters (src/preview/graph.rs)

The three converters produce tightly packed RGB24 top-down output.
Fixed-point BT.601 arithmetic uses `<<8` scaling; the Rust `>> 8` on
`i32` is an arithmetic shift, i.e. floor division by 256, embedded here
as `Int.fdiv`.  Rust slice indexing panics when out of bounds; each
converter therefore first checks (with a decidable bounded quantifier
ranging over exactly the indices the Rust loops access) that every
access is in bounds, and returns `none` (the panic) otherwise. -/

/-- The Rust `(e >> 8).clamp(0, 255) as u8` step of the converters. -/
def clamp8 (e : Int) : Nat := (min (max (Int.fdiv e 256) 0) 255).toNat

/-- The fixed-point red channel expression `y * 256 + 359 * v`. -/
def yuvR (y v : Int) : Int := y * 256 + 359 * v

/-- The fixed-point green channel expression `y * 256 - 88 * u - 183 * v`. -/
def yuvG (y u v : Int) : Int := y * 256 - 88 * u - 183 * v

/-- The fixed-point blue channel expression `y * 256 + 454 * u`. -/
def yuvB (y u : Int) : Int := y * 256 + 454 * u

/-- Embedding of `convert_bgr_bottom_up_to_rgb` (graph.rs:1158).
Iterates rows bottom-to-top, swapping B and R.  Returns `some []` when
the input is shorter than `width*3*height` (the Rust early return),
`none` if any access would be out of bounds (unreachable under the
guard, as proved below). -/
def convert_bgr_bottom_up_to_rgb (bgr : List Nat) (width height : Nat) :
    Option (List Nat) :=
  let stride := width * 3
  let expected := stride * height
  if bgr.length < expected then some [] else
  if (List.range height).all (fun y => (List.range width).all (fun x =>
      decide ((height - 1 - y) * stride + x * 3 + 2 < bgr.length))) then
    some ((List.range height).flatMap (fun y =>
      (List.range width).flatMap (fun x =>
        [bgr.getD ((height - 1 - y) * stride + x * 3 + 2) 0,
         bgr.getD ((height - 1 - y) * stride + x * 3 + 1) 0,
         bgr.getD ((height - 1 - y) * stride + x * 3) 0])))
  else none

/-- Embedding of `convert_yuy2_to_rgb` (graph.rs:1183).  Each 4-byte
macro-pixel `[Y0,U,Y1,V]` yields two RGB pixels.  The Rust code writes
into a preallocated `vec![0u8; w*h*3]`; when `w*h` is odd the final 3
bytes are never written and stay 0, modelled by the `replicate`
padding. -/
def convert_yuy2_to_rgb (yuy2 : List Nat) (width height : Nat) :
    Option (List Nat) :=
  let expected := width * height * 2
  if yuy2.length < expected ∨ width = 0 ∨ height = 0 then some [] else
  if (List.range (width * height / 2)).all (fun i =>
      decide (i * 4 + 3 < yuy2.length)) then
    some (((List.range (width * height / 2)).flatMap (fun i =>
      let y0 : Int := yuy2.getD (i * 4) 0
      let u : Int := (yuy2.getD (i * 4 + 1) 0 : Int) - 128
      let y1 : Int := yuy2.getD (i * 4 + 2) 0
      let v : Int := (yuy2.getD (i * 4 + 3) 0 : Int) - 128
      [clamp8 (yuvR y0 v), clamp8 (yuvG y0 u v), clamp8 (yuvB y0 u),
       clamp8 (yuvR y1 v), clamp8 (yuvG y1 u v), clamp8 (yuvB y1 u)])) ++
      List.replicate (width * height * 3 - width * height / 2 * 6) 0)
  else none

/-- Embedding of `convert_nv12_to_rgb` (graph.rs:1213).  Full-res Y
plane followed by interleaved half-res UV plane.  The Rust code indexes
`uv_plane[uv_index]` and `uv_plane[uv_index + 1]`; `none` models the
panic when such an access is out of bounds (which happens for odd
dimensions even on input of the "expected" size). -/
def convert_nv12_to_rgb (nv12 : List Nat) (width height : Nat) :
    Option (List Nat) :=
  let expected := width * height * 3 / 2
  if nv12.length < expected ∨ width = 0 ∨ height = 0 then some [] else
  let y_plane := nv12.take (width * height)
  let uv_plane := nv12.drop (width * height)
  if (List.range height).all (fun row => (List.range width).all (fun col =>
      decide (row * width + col < y_plane.length ∧
        row / 2 * width + col / 2 * 2 + 1 < uv_plane.length))) then
    some ((List.range height).flatMap (fun row =>
      (List.range width).flatMap (fun col =>
        let y : Int := y_plane.getD (row * width + col) 0
        let u : Int := (uv_plane.getD (row / 2 * width + col / 2 * 2) 0 : Int) - 128
        let v : Int := (uv_plane.getD (row / 2 * width + col / 2 * 2 + 1) 0 : Int) - 128
        [clamp8 (yuvR y v), clamp8 (yuvG y u v), clamp8 (yuvB y u)])))
  else none

/-- The NV12 pixel formula exactly as the spec words it: for pixel
`(row,col)`, `Y = y[row*W + col]`, `U = uv[(row/2)*W + (col/2)*2] - 128`,
`V = uv[(row/2)*W + (col/2)*2 + 1] - 128`, then the BT.601 fixed-point
matrix clamped to `[0,255]`.  Written from the spec sentence (not the
code) to compare the converter against. -/
def nv12SpecPixel (nv12 : List Nat) (width height row col : Nat) : List Nat :=
  let y : Int := nv12.getD (row * width + col) 0
  let u : Int :=
    (nv12.getD (width * height + (row / 2 * width + col / 2 * 2)) 0 : Int) - 128
  let v : Int :=
    (nv12.getD (width * height + (row / 2 * width + col / 2 * 2 + 1)) 0 : Int) - 128
  [clamp8 (yuvR y v), clamp8 (yuvG y u v), clamp8 (yuvB y u)]

/-! ## Frame ring buffer (src/preview/capture.rs)

`FrameBuffer` holds `capacity` optional slots, a write index and a
monotonic sequence counter.  `push` writes `slots[write_idx]` — in Rust
an index panic when `write_idx` is out of range (in particular for
capacity 0), modelled by `Option`. -/

/-- A captured frame: RGB bytes plus geometry and timestamp. -/
structure Frame where
  data : List Nat
  width : Nat
  height : Nat
  timestamp_us : Nat
deriving DecidableEq

/-- The state of a `FrameBuffer`: slot vector (length = capacity),
write index, and sequence counter. -/
structure FrameBufferState where
  frames : List (Option Frame)
  write_idx : Nat
  seq : Nat
deriving DecidableEq

/-- Constructor `FrameBuffer::new(capacity)`: all slots empty, index and sequence 0. -/
def FrameBuffer.new (capacity : Nat) : FrameBufferState :=
  { frames := List.replicate capacity none, write_idx := 0, seq := 0 }

/-- Method `FrameBuffer::push`: write into `slots[write_idx]`, advance
`write_idx = (write_idx + 1) % capacity`, increment the sequence.
`none` models the Rust index panic when `write_idx` is out of range. -/
def FrameBufferState.push (s : FrameBufferState) (f : Frame) :
    Option FrameBufferState :=
  if s.write_idx < s.frames.length then
    some { frames := s.frames.set s.write_idx (some f),
           write_idx := (s.write_idx + 1) % s.frames.length,
           seq := s.seq + 1 }
  else none

/-- Method `FrameBuffer::sequence`. -/
def FrameBufferState.sequence (s : FrameBufferState) : Nat := s.seq

/-- Method `FrameBuffer::latest`: `None` for capacity 0, otherwise the slot at
`(write_idx - 1) mod capacity` (written as in the source: `capacity - 1`
when `write_idx == 0`, else `write_idx - 1`). -/
def FrameBufferState.latest (s : FrameBufferState) : Option Frame :=
  if s.frames.length = 0 then none
  else
    let latest_idx :=
      if s.write_idx = 0 then s.frames.length - 1 else s.write_idx - 1
    s.frames.getD latest_idx none

/-- Push a list of frames in order, propagating any panic. -/
def FrameBufferState.pushAll (s : FrameBufferState) :
    List Frame → Option FrameBufferState
  | [] => some s
  | f :: rest =>
    match s.push f with
    | some s2 => s2.pushAll rest
    | none => none

/-! ## Watchdog frame phase (src/preview/capture.rs:307-335)

The frame phase polls `shutdown`, `running` and `buffer.sequence()`
every `poll_interval` until `frame_timeout` elapses.  Real time is
discretised to poll ticks: iteration `k` observes the environment at
time `k * poll_interval`, and the deadline check `now >= deadline`
becomes "fuel exhausted", with fuel `frame_timeout / poll_interval`.
The error callback is modelled by the list of messages passed to it;
`cleared_running` records the `running.store(false)` write. -/

/-- What the watchdog observes at one poll: the `shutdown` flag, the
`running` flag, and `buffer.sequence()`. -/
structure WatchdogObs where
  shutdown : Bool
  running : Bool
  seq : Nat

/-- Outcome of the frame phase: messages the error callback received,
whether the watchdog stored `false` into `running`, and whether it
exited via the healthy branch. -/
structure WatchdogOutcome where
  callbackMsgs : List String
  cleared_running : Bool
  healthy : Bool
deriving DecidableEq

/-- The error message built at capture.rs:325-328. -/
def noFramesMessage (timeoutSecs : Nat) : String :=
  "Camera produces no frames (" ++ toString timeoutSecs ++ "s timeout)"

/-- One-loop body of the frame phase, structurally recursive on the
number of polls remaining before the deadline. -/
def framePhaseLoop (obs : Nat → WatchdogObs) (timeoutSecs : Nat) :
    Nat → Nat → WatchdogOutcome
  | k, fuel =>
    let o := obs k
    if o.shutdown || !o.running then
      { callbackMsgs := [], cleared_running := false, healthy := false }
    else if o.seq > 0 then
      { callbackMsgs := [], cleared_running := false, healthy := true }
    else
      match fuel with
      | 0 =>
        { callbackMsgs := [noFramesMessage timeoutSecs],
          cleared_running := true, healthy := false }
      | fuel' + 1 => framePhaseLoop obs timeoutSecs (k + 1) fuel'

/-- The frame phase of `run_watchdog_with_config`: intervals in
milliseconds, message uses whole seconds as in
`frame_timeout.as_secs()`. -/
def watchdogFramePhase (obs : Nat → WatchdogObs)
    (frameTimeoutMs pollIntervalMs : Nat) : WatchdogOutcome :=
  framePhaseLoop obs (frameTimeoutMs / 1000) 0 (frameTimeoutMs / pollIntervalMs)

/-! ## Camera types and errors (src/camera/types.rs, src/camera/error.rs) -/

/-- The closed error taxonomy of `CameraError`. -/
inductive CameraError where
  | deviceNotFound (details : String)
  | comInit (details : String)
  | enumerationFailed (details : String)
  | controlQuery (details : String)
  | controlWrite (details : String)
  | formatQuery (details : String)
  | hotplugFailed (details : String)
  | canonSdkError (details : String)
  | canonSessionNotOpen (details : String)
  | canonDeviceBusy (details : String)
deriving DecidableEq

/-- Holds exactly on the routing sentinel `DeviceNotFound`. -/
def CameraError.isDeviceNotFound : CameraError → Bool
  | .deviceNotFound _ => true
  | _ => false

/-- Embedding of `CameraDevice` — short-lived enumeration snapshot entry. -/
structure CameraDevice where
  id : String
  name : String
  device_path : String
  is_connected : Bool
deriving DecidableEq

/-- The closed `ControlId` enumeration from types.rs. -/
inductive ControlId where
  | pan | tilt | roll | zoom | exposure | iris | focus
  | brightness | contrast | hue | saturation | sharpness | gamma
  | colorEnable | whiteBalance | backlightCompensation | gain
deriving DecidableEq

/-- Method `ControlId::as_id_str` — the canonical snake_case id string. -/
def ControlId.as_id_str : ControlId → String
  | .pan => "pan"
  | .tilt => "tilt"
  | .roll => "roll"
  | .zoom => "zoom"
  | .exposure => "exposure"
  | .iris => "iris"
  | .focus => "focus"
  | .brightness => "brightness"
  | .contrast => "contrast"
  | .hue => "hue"
  | .saturation => "saturation"
  | .sharpness => "sharpness"
  | .gamma => "gamma"
  | .colorEnable => "color_enable"
  | .whiteBalance => "white_balance"
  | .backlightCompensation => "backlight_compensation"
  | .gain => "gain"

/-- Method `ControlId::from_str_id` — parse a snake_case id string. -/
def ControlId.from_str_id (s : String) : Option ControlId :=
  if s = "pan" then some .pan
  else if s = "tilt" then some .tilt
  else if s = "roll" then some .roll
  else if s = "zoom" then some .zoom
  else if s = "exposure" then some .exposure
  else if s = "iris" then some .iris
  else if s = "focus" then some .focus
  else if s = "brightness" then some .brightness
  else if s = "contrast" then some .contrast
  else if s = "hue" then some .hue
  else if s = "saturation" then some .saturation
  else if s = "sharpness" then some .sharpness
  else if s = "gamma" then some .gamma
  else if s = "color_enable" then some .colorEnable
  else if s = "white_balance" then some .whiteBalance
  else if s = "backlight_compensation" then some .backlightCompensation
  else if s = "gain" then some .gain
  else none

/-- Embedding of `ControlValue` — a single signed integer, clamped on construction. -/
structure ControlValue where
  val : Int
deriving DecidableEq

/-- Constructor `ControlValue::new(value, min, max)` from types.rs:260-269:
`v.max(lo)` when a lower bound is supplied, then `v.min(hi)` when an
upper bound is supplied. -/
def ControlValue.new (value : Int) (min? max? : Option Int) : ControlValue :=
  let v := value
  let v := match min? with | some lo => max v lo | none => v
  let v := match max? with | some hi => min v hi | none => v
  { val := v }

/-- Method `ControlValue::value`. -/
def ControlValue.value (c : ControlValue) : Int := c.val

/-- The fields of `ControlDescriptor` the verified operations consume. -/
structure ControlDescriptor where
  id : String
  name : String
  min : Option Int
  max : Option Int
  step : Option Int
  default : Option Int
  current : Int
deriving DecidableEq

/-- Embedding of `FormatDescriptor`; fps is kept as a natural (the claims never
touch it; Rust uses f32). -/
structure FormatDescriptor where
  width : Nat
  height : Nat
  fps : Nat
  pixel_format : String
deriving DecidableEq

/-! ## Composite backend (src/camera/composite.rs)

A sub-backend is modelled by its responses: the result of
`enumerate_devices`, and per-device results for the four routed
operations.  The composite's logic consumes those results exactly as
the Rust loops do. -/

/-- A camera backend, seen through the responses the composite
consumes. -/
structure CameraBackend where
  enumerate_devices : Except CameraError (List CameraDevice)
  get_controls : String → Except CameraError (List ControlDescriptor)
  get_control : String → ControlId → Except CameraError ControlValue
  set_control : String → ControlId → ControlValue → Except CameraError Unit
  get_formats : String → Except CameraError (List FormatDescriptor)
  watch_hotplug : Except CameraError Unit

/-- Method `CompositeBackend::enumerate_devices` (composite.rs:30-39):
concatenate each sub-backend's successful list; a failure is logged
(counted here) and skipped; the whole call always returns `Ok`. -/
def CompositeBackend.enumerate_devices (backends : List CameraBackend) :
    Except CameraError (List CameraDevice) :=
  Except.ok (backends.flatMap (fun b =>
    match b.enumerate_devices with
    | .ok devices => devices
    | .error _ => []))

/-- Function `route_to_backend` (composite.rs:79-95): try each backend in order;
`DeviceNotFound` means "not mine, try next"; any other result — success
or failure — is returned; if all return `DeviceNotFound`, return
`DeviceNotFound(id)`. -/
def route_to_backend {T : Type} (results : List (Except CameraError T))
    (id : String) : Except CameraError T :=
  match results with
  | [] => .error (.deviceNotFound id)
  | r :: rest =>
    match r with
    | .ok v => .ok v
    | .error (.deviceNotFound _) => route_to_backend rest id
    | .error e => .error e

/-- Method `CompositeBackend::get_controls`. -/
def CompositeBackend.get_controls (backends : List CameraBackend)
    (id : String) : Except CameraError (List ControlDescriptor) :=
  route_to_backend (backends.map (fun b => b.get_controls id)) id

/-- Method `CompositeBackend::get_control`. -/
def CompositeBackend.get_control (backends : List CameraBackend)
    (id : String) (control : ControlId) : Except CameraError ControlValue :=
  route_to_backend (backends.map (fun b => b.get_control id control)) id

/-- Method `CompositeBackend::set_control`. -/
def CompositeBackend.set_control (backends : List CameraBackend)
    (id : String) (control : ControlId) (value : ControlValue) :
    Except CameraError Unit :=
  route_to_backend (backends.map (fun b => b.set_control id control value)) id

/-- Method `CompositeBackend::get_formats`. -/
def CompositeBackend.get_formats (backends : List CameraBackend)
    (id : String) : Except CameraError (List FormatDescriptor) :=
  route_to_backend (backends.map (fun b => b.get_formats id)) id

/-- Method `CompositeBackend::watch_hotplug` (composite.rs:41-58): register the
shared callback with every sub-backend; a failed registration is only
logged (counted here); the composite always returns `Ok(())`.  Returns
the overall result together with the number of warnings logged. -/
def CompositeBackend.watch_hotplug (backends : List CameraBackend) :
    Except CameraError Unit × Nat :=
  let warnings := backends.foldl (fun n b =>
    match b.watch_hotplug with
    | .ok _ => n
    | .error _ => n + 1) 0
  (Except.ok (), warnings)

/-! ## Settings persistence (src/settings/types.rs, src/settings/store.rs)

The store's in-memory data is a map from device-id strings to
`CameraSettings`; HashMap iteration order is abstracted as the order of
an association list.  The filesystem is modelled as `Option String`
(the file's contents, or `none` when missing) and serde JSON parsing as
a function parameter `parse`. -/

/-- Embedding of `CameraSettings` — friendly name plus saved control values. -/
structure CameraSettings where
  name : String
  controls : List (String × Int)
deriving DecidableEq

/-- Embedding of `SettingsFile` — the persisted `{cameras: …}` shape. -/
structure SettingsFile where
  cameras : List (String × CameraSettings)
deriving DecidableEq

/-- The `SettingsFile::default()` value — the empty store contents. -/
def SettingsFile.empty : SettingsFile := { cameras := [] }

/-- Function `SettingsStore::load` (store.rs:31-37): missing file yields the
default; otherwise read and parse, surfacing read/parse failures as
`Except.error`. -/
def SettingsStore.load (parse : String → Except String SettingsFile)
    (disk : Option String) : Except String SettingsFile :=
  match disk with
  | none => .ok SettingsFile.empty
  | some contents => parse contents

/-- Constructor `SettingsStore::new` (store.rs:20-28): the in-memory data is
`Self::load(&path).unwrap_or_default()` — note the error from `load`
is discarded, never surfaced. -/
def SettingsStore.new (parse : String → Except String SettingsFile)
    (disk : Option String) : SettingsFile :=
  match SettingsStore.load parse disk with
  | .ok d => d
  | .error _ => SettingsFile.empty

/-! ## Settings apply engine (src/settings/commands.rs:19-69)

`apply_saved_settings` is modelled against a fixed device id; the
backend is the `CameraBackend` record above.  Alongside the applied
list the embedding also returns the trace of `set_control` calls
(control id and clamped value), so "never calls set_control for …" is
statable. -/

/-- The loop body of `apply_saved_settings` for one saved
`(control_id_string, value)` pair: parse the id (unknown → skip), find
the matching descriptor (absent → skip), clamp against `[min,max]`,
call `set_control` (failure → logged, applied list unchanged).  The
accumulator carries the applied list and the trace of `set_control`
invocations. -/
def apply_step (backend : CameraBackend) (device_id : String)
    (descriptors : List ControlDescriptor)
    (acc : List (String × Int) × List (ControlId × Int)) (p : String × Int) :
    List (String × Int) × List (ControlId × Int) :=
  match ControlId.from_str_id p.1 with
  | none => acc
  | some control =>
    match descriptors.find? (fun d => d.id == p.1) with
    | none => acc
    | some desc =>
      let clamped := ControlValue.new p.2 desc.min desc.max
      match backend.set_control device_id control clamped with
      | .ok _ => (acc.1 ++ [(p.1, p.2)], acc.2 ++ [(control, clamped.value)])
      | .error _ => (acc.1, acc.2 ++ [(control, clamped.value)])

/-- Embedding of `apply_saved_settings(backend, store, device_id)`.  `saved` is the
store lookup `store.get_camera(device_id)`.  Returns the list of
successfully applied `(control_id_string, saved_value)` pairs together
with the trace of `set_control` invocations. -/
def apply_saved_settings (backend : CameraBackend)
    (saved : Option CameraSettings) (device_id : String) :
    List (String × Int) × List (ControlId × Int) :=
  match saved with
  | none => ([], [])
  | some s =>
    match backend.get_controls device_id with
    | .error _ => ([], [])
    | .ok descriptors =>
      s.controls.foldl (apply_step backend device_id descriptors) ([], [])

/-! ## get_frame and its JPEG cache (src/preview/commands.rs:259-304)

The per-device cache entry pairs a sequence number with a base64
string.  The JPEG encoder (`compress_jpeg`, quality 75) and the base64
encoder are external collaborators, passed as parameters.  The result
records whether the encoder was invoked. -/

/-- A cached JPEG for one device, keyed by frame sequence number. -/
structure JpegCache where
  sequence : Nat
  base64 : String
deriving DecidableEq

/-- Result of one `get_frame` call: the IPC response, the cache entry
for the device afterwards, and whether the JPEG encoder ran. -/
structure GetFrameResult where
  result : Except String String
  cache : Option JpegCache
  encoderInvoked : Bool

/-- Embedding of `get_frame`: read the latest frame and the buffer's current
sequence; on a cache hit (equal sequence) return the cached base64
without compressing; otherwise compress the latest frame, base64 it,
and update the cache. -/
def get_frame (compress_jpeg : List Nat → Nat → Nat → Nat → List Nat)
    (b64encode : List Nat → String)
    (session : Option FrameBufferState) (cache : Option JpegCache) :
    GetFrameResult :=
  match session with
  | none =>
    { result := .error ("no active preview for this device"),
      cache := cache, encoderInvoked := false }
  | some buf =>
    match buf.latest with
    | none =>
      { result := .error ("no frame available"),
        cache := cache, encoderInvoked := false }
    | some frame =>
      let seq := buf.sequence
      match cache with
      | some cached =>
        if cached.sequence = seq then
          { result := .ok cached.base64, cache := cache,
            encoderInvoked := false }
        else
          let s := b64encode (compress_jpeg frame.data frame.width frame.height 75)
          { result := .ok s, cache := some { sequence := seq, base64 := s },
            encoderInvoked := true }
      | none =>
        let s := b64encode (compress_jpeg frame.data frame.width frame.height 75)
        { result := .ok s, cache := some { sequence := seq, base64 := s },
          encoderInvoked := true }

/-! ## Concrete instances used by scenario conjuncts and witnesses,
and spec-side predicates for the apply engine -/

/-- A parse function representing serde on malformed JSON input (serde
rejects `"not valid json!!!"`, per the store's own tests). -/
def parseInvalidJson : String → Except String SettingsFile :=
  fun _ => Except.error ("expected value at line 1 column 1")

/-- A brightness slider descriptor `[0..255, default 128]` as in the
spec scenario S7. -/
def brightnessDesc : ControlDescriptor :=
  { id := "brightness", name := "Brightness", min := some 0, max := some 255,
    step := some 1, default := some 128, current := 128 }

/-- Concrete frames and post-state for the C3 witness. -/
def frameA : Frame := { data := [1], width := 1, height := 1, timestamp_us := 0 }

/-- Second concrete frame for the C3 witness. -/
def frameB : Frame := { data := [2], width := 1, height := 1, timestamp_us := 7 }

/-- The buffer state after pushing `frameA` then `frameB` into a fresh
capacity-3 buffer. -/
def pushedTwice : FrameBufferState :=
  { frames := [some frameA, some frameB, none], write_idx := 2, seq := 2 }

/-- A `set_control` trace entry is legitimate: its control id parses
from a saved entry whose descriptor is present, and the traced value is
the saved value clamped against the descriptor's bounds. -/
def CallOk (descs : List ControlDescriptor) (l : List (String × Int))
    (q : ControlId × Int) : Prop :=
  ∃ s val desc, (s, val) ∈ l ∧ ControlId.from_str_id s = some q.1 ∧
    descs.find? (fun d => d.id == s) = some desc ∧
    q.2 = (ControlValue.new val desc.min desc.max).value

/-- An applied pair is legitimate: it is a saved entry whose id parses,
whose descriptor is present, and whose clamped write succeeded. -/
def AppliedOk (backend : CameraBackend) (device_id : String)
    (descs : List ControlDescriptor) (l : List (String × Int))
    (q : String × Int) : Prop :=
  ∃ c desc, q ∈ l ∧ ControlId.from_str_id q.1 = some c ∧
    descs.find? (fun d => d.id == q.1) = some desc ∧
    backend.set_control device_id c
      (ControlValue.new q.2 desc.min desc.max) = .ok ()

/-- A contrast slider descriptor `[0..100, default 50]`. -/
def contrastDesc : ControlDescriptor :=
  { id := "contrast", name := "Contrast", min := some 0, max := some 100,
    step := some 1, default := some 50, current := 50 }

/-- Backend for spec scenario S7: exposes only the brightness
descriptor; every write succeeds. -/
def s7Backend : CameraBackend :=
  { enumerate_devices := .ok [],
    get_controls := fun _ => .ok [brightnessDesc],
    get_control := fun _ _ => .ok ⟨128⟩,
    set_control := fun _ _ _ => .ok (),
    get_formats := fun _ => .ok [],
    watch_hotplug := .ok () }

/-- Backend whose brightness write fails (mirrors the repo's
`with_failing_controls` test backend). -/
def failBrightnessBackend : CameraBackend :=
  { enumerate_devices := .ok [],
    get_controls := fun _ => .ok [brightnessDesc, contrastDesc],
    get_control := fun _ _ => .ok ⟨128⟩,
    set_control := fun _ c _ =>
      match c with
      | .brightness => .error (.controlWrite ("simulated failure for brightness"))
      | _ => .ok (),
    get_formats := fun _ => .ok [],
    watch_hotplug := .ok () }

/-! ## Theorems -/

/-- C7 counterexample: the claim `lo ≤ new(v,lo,hi).value ≤ hi` for
every pair of present bounds fails when `lo > hi`: with `v = 5`,
`lo = 10`, `hi = 0` the constructor yields `0`, and `10 ≤ 0` is false. -/
theorem C7_counterexample :
    ¬ (10 ≤ (ControlValue.new 5 (some 10) (some 0)).value ∧
       (ControlValue.new 5 (some 10) (some 0)).value ≤ 0) := by
  decide

/-- C7 (amended): when both bounds are present and `lo ≤ hi`,
`ControlValue::new` yields a value in `[lo, hi]`; with a single bound
present the value is clamped only against that bound. -/
theorem C7_control_value_clamped (v lo hi : Int) :
    (lo ≤ hi →
      lo ≤ (ControlValue.new v (some lo) (some hi)).value ∧
      (ControlValue.new v (some lo) (some hi)).value ≤ hi) ∧
    (ControlValue.new v (some lo) none).value = max v lo ∧
    (ControlValue.new v none (some hi)).value = min v hi ∧
    (ControlValue.new v none none).value = v := by
  refine ⟨fun hlh => ?_, rfl, rfl, rfl⟩
  simp only [ControlValue.new, ControlValue.value]
  omega

/-- C7 witness: instance of the amended clamp invariant at
`v = 5, lo = 0, hi = 1`. -/
theorem C7_control_value_clamped_witness :
    (0 : Int) ≤ 1 ∧
    (0 ≤ (ControlValue.new 5 (some 0) (some 1)).value ∧
      (ControlValue.new 5 (some 0) (some 1)).value ≤ 1) :=
  ⟨by decide, (C7_control_value_clamped 5 0 1).1 (by decide)⟩

/-- C10: `CompositeBackend::watch_hotplug` always returns `Ok(())`,
whatever each sub-backend's registration result is — failures are only
counted as logged warnings, never surfaced to the caller. -/
theorem C10_watch_hotplug_never_fails (backends : List CameraBackend) :
    (CompositeBackend.watch_hotplug backends).1 = Except.ok () :=
  rfl

/-- C8 counterexample: constructing the store over an existing
malformed file does NOT surface an error — `new` discards the `load`
error via `unwrap_or_default` and yields the empty store, exactly as
for a missing file, even though `load` itself reports the parse
error. -/
theorem C8_counterexample :
    SettingsStore.new parseInvalidJson (some ("not valid json!!!")) =
      SettingsFile.empty ∧
    SettingsStore.new parseInvalidJson none = SettingsFile.empty ∧
    SettingsStore.load parseInvalidJson (some ("not valid json!!!")) =
      Except.error ("expected value at line 1 column 1") :=
  ⟨rfl, rfl, rfl⟩

/-- C8 (amended): a missing file yields an empty store and a valid file
yields its parsed contents, but a malformed file does not surface an
error from construction: `SettingsStore::new` swallows the `load` error
(`unwrap_or_default`) and yields the empty store; only the `load`
helper surfaces the parse error. -/
theorem C8_store_construction (parse : String → Except String SettingsFile) :
    (SettingsStore.new parse none = SettingsFile.empty) ∧
    (∀ contents e, parse contents = Except.error e →
      SettingsStore.load parse (some contents) = Except.error e ∧
      SettingsStore.new parse (some contents) = SettingsFile.empty) ∧
    (∀ contents d, parse contents = Except.ok d →
      SettingsStore.new parse (some contents) = d) := by
  refine ⟨rfl, fun contents e he => ?_, fun contents d hd => ?_⟩
  · simp [SettingsStore.load, SettingsStore.new, he]
  · simp [SettingsStore.load, SettingsStore.new, hd]

/-- C8 witness: the amended behaviour at the concrete malformed file. -/
theorem C8_store_construction_witness :
    parseInvalidJson ("not valid json!!!") =
      Except.error ("expected value at line 1 column 1") ∧
    (SettingsStore.load parseInvalidJson (some ("not valid json!!!")) =
      Except.error ("expected value at line 1 column 1") ∧
     SettingsStore.new parseInvalidJson (some ("not valid json!!!")) =
      SettingsFile.empty) :=
  ⟨rfl, (C8_store_construction parseInvalidJson).2.1 ("not valid json!!!")
    "expected value at line 1 column 1" rfl⟩

/-- C9: a `get_frame` request first reads the buffer's sequence; on a
cache hit (cached sequence equals current sequence) it returns the
cached base64 string without invoking the JPEG encoder and leaves the
cache unchanged; on a miss it compresses the latest frame and updates
the cache; consequently two consecutive calls with no intervening push
return the same base64 string, the second from cache. -/
theorem C9_get_frame_cache
    (compress_jpeg : List Nat → Nat → Nat → Nat → List Nat)
    (b64encode : List Nat → String)
    (buf : FrameBufferState) (cache : Option JpegCache) :
    (∀ c, cache = some c → c.sequence = buf.sequence →
      (∃ f, buf.latest = some f) →
      get_frame compress_jpeg b64encode (some buf) cache =
        { result := .ok c.base64, cache := cache, encoderInvoked := false }) ∧
    (∀ f, buf.latest = some f →
      (∀ c, cache = some c → c.sequence ≠ buf.sequence) →
      get_frame compress_jpeg b64encode (some buf) cache =
        ⟨.ok (b64encode (compress_jpeg f.data f.width f.height 75)),
         some ⟨buf.sequence, b64encode (compress_jpeg f.data f.width f.height 75)⟩,
         true⟩) ∧
    (∀ s, (get_frame compress_jpeg b64encode (some buf) cache).result =
        .ok s →
      get_frame compress_jpeg b64encode (some buf)
          (get_frame compress_jpeg b64encode (some buf) cache).cache =
        { result := .ok s,
          cache := (get_frame compress_jpeg b64encode (some buf) cache).cache,
          encoderInvoked := false }) := by
  refine ⟨?_, ?_, ?_⟩
  · rintro c rfl hseq ⟨f, hf⟩
    simp [get_frame, hf, hseq]
  · intro f hf hmiss
    cases cache with
    | none => simp [get_frame, hf]
    | some c =>
      have : c.sequence ≠ buf.sequence := hmiss c rfl
      simp [get_frame, hf, this]
  · intro s hs
    cases hlat : buf.latest with
    | none =>
      exfalso
      simp [get_frame, hlat] at hs
    | some f =>
      cases cache with
      | none =>
        simp [get_frame, hlat] at hs ⊢
        simp [← hs]
      | some c =>
        by_cases hseq : c.sequence = buf.sequence
        · simp [get_frame, hlat, hseq] at hs ⊢
          simp [← hs]
        · simp [get_frame, hlat, hseq] at hs ⊢
          simp [← hs]

/-- C9 witness: cache hit at a concrete one-frame buffer. -/
theorem C9_get_frame_cache_witness :
    get_frame (fun _ _ _ _ => [1, 2]) (fun _ => "AQI=")
        (some ⟨[some ⟨[0, 0, 0], 1, 1, 0⟩, none, none], 1, 1⟩)
        (some ⟨1, "AQI="⟩) =
      ⟨.ok ("AQI="), some ⟨1, "AQI="⟩, false⟩ :=
  (C9_get_frame_cache (fun _ _ _ _ => [1, 2]) (fun _ => "AQI=") _ _).1
    ⟨1, "AQI="⟩ rfl rfl ⟨⟨[0, 0, 0], 1, 1, 0⟩, rfl⟩

/-- Helper: `route_to_backend` skips a `DeviceNotFound` prefix. -/
theorem route_skips_dnf_results {T : Type} (id : String)
    (pre : List (Except CameraError T))
    (rest : List (Except CameraError T)) :
    (∀ x ∈ pre, ∃ s, x = .error (.deviceNotFound s)) →
    route_to_backend (pre ++ rest) id = route_to_backend rest id := by
  induction pre with
  | nil => intro _; rfl
  | cons x xs ih =>
    intro hpre
    obtain ⟨s, rfl⟩ := hpre x (List.mem_cons_self x xs)
    simpa [route_to_backend] using
      ih (fun y hy => hpre y (List.mem_cons_of_mem _ hy))

/-- C5: the composite's `enumerate_devices` always succeeds; it skips a
failing sub-backend and prepends a succeeding sub-backend's devices in
order; a routed operation returns the result — success or
non-`DeviceNotFound` failure — of the first sub-backend whose result is
not `DeviceNotFound`, and `DeviceNotFound(id)` when all sub-backends
report `DeviceNotFound`; the four control/format operations are all
defined through that router. -/
theorem C5_composite_backend :
    (∀ backends : List CameraBackend, ∃ devs,
      CompositeBackend.enumerate_devices backends = .ok devs) ∧
    (∀ (b : CameraBackend) (rest : List CameraBackend) (e : CameraError),
      b.enumerate_devices = .error e →
      CompositeBackend.enumerate_devices (b :: rest) =
        CompositeBackend.enumerate_devices rest) ∧
    (∀ (b : CameraBackend) (rest : List CameraBackend) devs tail,
      b.enumerate_devices = .ok devs →
      CompositeBackend.enumerate_devices rest = .ok tail →
      CompositeBackend.enumerate_devices (b :: rest) = .ok (devs ++ tail)) ∧
    (∀ (T : Type) (id : String) (results : List (Except CameraError T)),
      (∀ r ∈ results, ∃ s, r = .error (.deviceNotFound s)) →
      route_to_backend results id = .error (.deviceNotFound id)) ∧
    (∀ (T : Type) (id : String) (pre post : List (Except CameraError T)) r,
      (∀ x ∈ pre, ∃ s, x = .error (.deviceNotFound s)) →
      (∀ s, r ≠ .error (.deviceNotFound s)) →
      route_to_backend (pre ++ r :: post) id = r) ∧
    (∀ backends id, CompositeBackend.get_controls backends id =
      route_to_backend (backends.map (fun b => b.get_controls id)) id) ∧
    (∀ backends id control, CompositeBackend.get_control backends id control =
      route_to_backend (backends.map (fun b => b.get_control id control)) id) ∧
    (∀ backends id control value,
      CompositeBackend.set_control backends id control value =
        route_to_backend
          (backends.map (fun b => b.set_control id control value)) id) ∧
    (∀ backends id, CompositeBackend.get_formats backends id =
      route_to_backend (backends.map (fun b => b.get_formats id)) id) := by
  refine ⟨fun backends => ⟨_, rfl⟩, ?_, ?_, ?_, ?_,
    fun _ _ => rfl, fun _ _ _ => rfl, fun _ _ _ _ => rfl, fun _ _ => rfl⟩
  · intro b rest e he
    simp [CompositeBackend.enumerate_devices, he]
  · intro b rest devs tail hb hrest
    simp only [CompositeBackend.enumerate_devices, Except.ok.injEq] at hrest ⊢
    simp [hb, hrest]
  · intro T id results
    induction results with
    | nil => intro _; rfl
    | cons r rest ih =>
      intro hall
      obtain ⟨s, rfl⟩ := hall r (List.mem_cons_self r rest)
      simpa [route_to_backend] using
        ih (fun y hy => hall y (List.mem_cons_of_mem _ hy))
  · intro T id pre post r hpre hr
    rw [route_skips_dnf_results id pre (r :: post) hpre]
    cases r with
    | ok v => rfl
    | error e =>
      cases e with
      | deviceNotFound s => exact absurd rfl (hr s)
      | comInit d => rfl
      | enumerationFailed d => rfl
      | controlQuery d => rfl
      | controlWrite d => rfl
      | formatQuery d => rfl
      | hotplugFailed d => rfl
      | canonSdkError d => rfl
      | canonSessionNotOpen d => rfl
      | canonDeviceBusy d => rfl

/-- C5 witness: routing past one `DeviceNotFound` backend to the owner
(spec scenario S1). -/
theorem C5_composite_backend_witness :
    route_to_backend
        [Except.error (CameraError.deviceNotFound ("canon:SER001")),
         Except.ok [brightnessDesc]] "canon:SER001" =
      Except.ok [brightnessDesc] :=
  C5_composite_backend.2.2.2.2.1 (List ControlDescriptor) "canon:SER001"
    [Except.error (CameraError.deviceNotFound ("canon:SER001"))] []
    (Except.ok [brightnessDesc])
    (fun x hx => by
      simp only [List.mem_singleton] at hx
      exact ⟨"canon:SER001", hx⟩)
    (fun s h => by cases h)

/-- Helper: a successful `push` writes the slot, advances the index
modulo capacity, and increments the sequence. -/
theorem push_spec (t : FrameBufferState) (g : Frame) (t2 : FrameBufferState)
    (h : t.push g = some t2) :
    t2.frames = t.frames.set t.write_idx (some g) ∧
    t2.write_idx = (t.write_idx + 1) % t.frames.length ∧
    t2.seq = t.seq + 1 := by
  unfold FrameBufferState.push at h
  split at h
  · cases h
    exact ⟨rfl, rfl, rfl⟩
  · cases h

/-- Helper: after a successful `push`, `latest` is the pushed frame. -/
theorem push_latest (t : FrameBufferState) (g : Frame) (t2 : FrameBufferState)
    (h : t.push g = some t2) : t2.latest = some g := by
  unfold FrameBufferState.push at h
  split at h
  case isFalse => cases h
  case isTrue hlt =>
    cases h
    unfold FrameBufferState.latest
    simp only [List.length_set]
    rw [if_neg (by omega : ¬ t.frames.length = 0)]
    have hidx : (if (t.write_idx + 1) % t.frames.length = 0
        then t.frames.length - 1
        else (t.write_idx + 1) % t.frames.length - 1) = t.write_idx := by
      rcases Nat.lt_or_ge (t.write_idx + 1) t.frames.length with hcase | hcase
      · rw [Nat.mod_eq_of_lt hcase, if_neg (by omega)]
        omega
      · have heq : t.write_idx + 1 = t.frames.length := by omega
        rw [heq, Nat.mod_self, if_pos rfl]
        omega
    rw [hidx, List.getD_eq_getElem _ _ (by simpa using hlt)]
    simp [List.getElem_set]

/-- Helper: pushing a list of frames adds its length to the sequence
and leaves the last pushed frame as `latest`. -/
theorem pushAll_ok (l : List Frame) :
    ∀ (s s2 : FrameBufferState), s.pushAll l = some s2 →
    s2.seq = s.seq + l.length ∧ (l = [] → s2 = s) ∧
    (∀ f, l.getLast? = some f → s2.latest = some f) := by
  induction l with
  | nil =>
    intro s s2 h
    cases h
    exact ⟨rfl, fun _ => rfl, fun f hf => by cases hf⟩
  | cons g rest ih =>
    intro s s2 h
    unfold FrameBufferState.pushAll at h
    cases hp : s.push g with
    | none => rw [hp] at h; cases h
    | some s1 =>
      rw [hp] at h
      obtain ⟨hseq, hnil, hlast⟩ := ih s1 s2 h
      have hs1 : s1.seq = s.seq + 1 := (push_spec s g s1 hp).2.2
      refine ⟨?_, fun hfalse => absurd hfalse (List.cons_ne_nil g rest), ?_⟩
      · rw [hseq, hs1]
        simp only [List.length_cons]
        omega
      intro f hf
      cases rest with
      | nil =>
        simp only [List.getLast?_singleton, Option.some.injEq] at hf
        subst hf
        have : s2 = s1 := hnil rfl
        rw [this]
        exact push_latest s g s1 hp
      | cons g2 rest2 =>
        rw [List.getLast?_cons_cons] at hf
        exact hlast f hf

/-- C3: for a `FrameBuffer` created with capacity `N`, after
successfully pushing `K` frames in order, `sequence()` is `K`; for
`K = 0` `latest()` is `None` and the fresh state is unchanged; for
`K >= 1` `latest()` is the `K`-th pushed frame; and every successful
push writes `slots[write_idx]`, advances
`write_idx = (write_idx + 1) % capacity` and increments the sequence by
exactly one.  (Sharing of the returned `Arc<Frame>` pointer is a memory
representation property outside this value-level embedding.) -/
theorem C3_ring_buffer :
    (∀ (N : Nat) (l : List Frame) (s : FrameBufferState),
      (FrameBuffer.new N).pushAll l = some s →
      s.sequence = l.length ∧
      (l = [] → s.latest = none) ∧
      (∀ f, l.getLast? = some f → s.latest = some f)) ∧
    (∀ (t : FrameBufferState) (g : Frame) (t2 : FrameBufferState),
      t.push g = some t2 →
      t2.frames = t.frames.set t.write_idx (some g) ∧
      t2.write_idx = (t.write_idx + 1) % t.frames.length ∧
      t2.seq = t.seq + 1) := by
  constructor
  · intro N l s h
    obtain ⟨hseq, hnil, hlast⟩ := pushAll_ok l (FrameBuffer.new N) s h
    refine ⟨by simpa [FrameBufferState.sequence, FrameBuffer.new] using hseq,
      fun hl => ?_, hlast⟩
    rw [hnil hl]
    unfold FrameBufferState.latest FrameBuffer.new
    simp only [List.length_replicate]
    split
    · rfl
    · simp [List.getD]
  · exact push_spec

/-- C3 witness: capacity 3 (the capture session's), two pushes. -/
theorem C3_ring_buffer_witness :
    (FrameBuffer.new 3).pushAll [frameA, frameB] = some pushedTwice ∧
    pushedTwice.sequence = 2 ∧ pushedTwice.latest = some frameB :=
  ⟨by decide,
   (C3_ring_buffer.1 3 [frameA, frameB] pushedTwice (by decide)).1,
   (C3_ring_buffer.1 3 [frameA, frameB] pushedTwice (by decide)).2.2 frameB
     (by decide)⟩

/-- Helper: if `shutdown` stays false, `running` stays true and the
sequence stays 0 at every poll until the deadline, the loop fires. -/
theorem framePhaseLoop_fires (obs : Nat → WatchdogObs) (timeoutSecs : Nat) :
    ∀ (fuel k : Nat),
    (∀ j, j ≤ fuel → obs (k + j) = ⟨false, true, 0⟩) →
    framePhaseLoop obs timeoutSecs k fuel =
      ⟨[noFramesMessage timeoutSecs], true, false⟩ := by
  intro fuel
  induction fuel with
  | zero =>
    intro k h
    have h0 := h 0 (Nat.le_refl 0)
    simp only [Nat.add_zero] at h0
    simp [framePhaseLoop, h0]
  | succ fuel ih =>
    intro k h
    have h0 := h 0 (Nat.zero_le _)
    simp only [Nat.add_zero] at h0
    have hrec := ih (k + 1) (fun j hj => by
      have := h (j + 1) (by omega)
      simpa [Nat.add_assoc, Nat.add_comm 1 j] using this)
    simp [framePhaseLoop, h0, hrec]

/-- Helper: if the sequence becomes positive at poll `j` (within the
deadline) while `shutdown` is false and `running` is true up to `j`,
the loop exits healthy: no callback, `running` untouched. -/
theorem framePhaseLoop_healthy (obs : Nat → WatchdogObs) (timeoutSecs : Nat) :
    ∀ (fuel k j : Nat), j ≤ fuel →
    (∀ i, i < j → obs (k + i) = ⟨false, true, 0⟩) →
    (obs (k + j)).shutdown = false → (obs (k + j)).running = true →
    0 < (obs (k + j)).seq →
    framePhaseLoop obs timeoutSecs k fuel = ⟨[], false, true⟩ := by
  intro fuel
  induction fuel with
  | zero =>
    intro k j hj hbefore hsd hrun hseq
    have hj0 : j = 0 := by omega
    subst hj0
    simp only [Nat.add_zero] at hsd hrun hseq
    simp [framePhaseLoop, hsd, hrun, hseq]
  | succ fuel ih =>
    intro k j hj hbefore hsd hrun hseq
    cases j with
    | zero =>
      simp only [Nat.add_zero] at hsd hrun hseq
      simp [framePhaseLoop, hsd, hrun, hseq]
    | succ j0 =>
      have h0 := hbefore 0 (Nat.succ_pos j0)
      simp only [Nat.add_zero] at h0
      have hrec := ih (k + 1) j0 (by omega)
        (fun i hi => by
          have := hbefore (i + 1) (by omega)
          simpa [Nat.add_assoc, Nat.add_comm 1 i] using this)
        (by simpa [Nat.add_assoc, Nat.add_comm 1 j0] using hsd)
        (by simpa [Nat.add_assoc, Nat.add_comm 1 j0] using hrun)
        (by simpa [Nat.add_assoc, Nat.add_comm 1 j0] using hseq)
      simp [framePhaseLoop, h0, hrec]

/-- C4: in the watchdog's frame phase, if `running` stays true,
`shutdown` stays false and the buffer's sequence stays 0 at every poll
until the first-frame deadline, the error callback is invoked exactly
once with the "Camera produces no frames (Ns timeout)" message and
`running` is cleared; if the sequence becomes positive at some poll
before the deadline, it exits with no callback and without clearing
`running`.  (Real time is discretised to poll ticks: poll `j` happens
at `j * poll_interval`, and the deadline allows
`frame_timeout / poll_interval` sleeps.)  The concrete default message
for the 5 s timeout is also pinned. -/
theorem C4_watchdog_frame_phase :
    (∀ (obs : Nat → WatchdogObs) (frameTimeoutMs pollIntervalMs : Nat),
      (∀ j, j ≤ frameTimeoutMs / pollIntervalMs → obs j = ⟨false, true, 0⟩) →
      watchdogFramePhase obs frameTimeoutMs pollIntervalMs =
        ⟨[noFramesMessage (frameTimeoutMs / 1000)], true, false⟩) ∧
    (∀ (obs : Nat → WatchdogObs) (frameTimeoutMs pollIntervalMs j : Nat),
      j ≤ frameTimeoutMs / pollIntervalMs →
      (∀ i, i < j → obs i = ⟨false, true, 0⟩) →
      (obs j).shutdown = false → (obs j).running = true → 0 < (obs j).seq →
      watchdogFramePhase obs frameTimeoutMs pollIntervalMs =
        ⟨[], false, true⟩) ∧
    noFramesMessage 5 = "Camera produces no frames (5s timeout)" := by
  refine ⟨?_, ?_, rfl⟩
  · intro obs ft pi h
    exact framePhaseLoop_fires obs (ft / 1000) (ft / pi) 0
      (fun j hj => by simpa using h j hj)
  · intro obs ft pi j hj hbefore hsd hrun hseq
    exact framePhaseLoop_healthy obs (ft / 1000) (ft / pi) 0 j hj
      (fun i hi => by simpa using hbefore i hi)
      (by simpa using hsd) (by simpa using hrun) (by simpa using hseq)

/-- C4 witness: the default configuration (5 s timeout, 250 ms poll)
with an environment that never produces a frame: the callback receives
exactly one "no frames" message and `running` is cleared. -/
theorem C4_watchdog_frame_phase_witness :
    watchdogFramePhase (fun _ => ⟨false, true, 0⟩) 5000 250 =
      ⟨["Camera produces no frames (5s timeout)"], true, false⟩ :=
  C4_watchdog_frame_phase.1 (fun _ => ⟨false, true, 0⟩) 5000 250
    (fun _ _ => rfl)

/-- Weakening `CallOk` along list extension. -/
theorem CallOk_cons (descs : List ControlDescriptor) (p : String × Int)
    (rest : List (String × Int)) (q : ControlId × Int)
    (h : CallOk descs rest q) : CallOk descs (p :: rest) q := by
  obtain ⟨s, val, desc, hmem, h1, h2, h3⟩ := h
  exact ⟨s, val, desc, List.mem_cons_of_mem p hmem, h1, h2, h3⟩

/-- Weakening `AppliedOk` along list extension. -/
theorem AppliedOk_cons (backend : CameraBackend) (device_id : String)
    (descs : List ControlDescriptor) (p : String × Int)
    (rest : List (String × Int)) (q : String × Int)
    (h : AppliedOk backend device_id descs rest q) :
    AppliedOk backend device_id descs (p :: rest) q := by
  obtain ⟨c, desc, hmem, h1, h2, h3⟩ := h
  exact ⟨c, desc, List.mem_cons_of_mem p hmem, h1, h2, h3⟩

/-- Fold invariant for the apply engine: every element of the call
trace and of the applied list either came in with the accumulator or is
legitimate for the saved list. -/
theorem apply_fold_inv (backend : CameraBackend) (device_id : String)
    (descs : List ControlDescriptor) :
    ∀ (l : List (String × Int))
      (acc : List (String × Int) × List (ControlId × Int)),
    (∀ q ∈ (l.foldl (apply_step backend device_id descs) acc).2,
      q ∈ acc.2 ∨ CallOk descs l q) ∧
    (∀ q ∈ (l.foldl (apply_step backend device_id descs) acc).1,
      q ∈ acc.1 ∨ AppliedOk backend device_id descs l q) := by
  intro l
  induction l with
  | nil => exact fun acc => ⟨fun q hq => .inl hq, fun q hq => .inl hq⟩
  | cons p rest ih =>
    intro acc
    simp only [List.foldl_cons]
    rcases hparse : ControlId.from_str_id p.1 with _ | control
    · have hstep : apply_step backend device_id descs acc p = acc := by
        simp [apply_step, hparse]
      rw [hstep]
      refine ⟨fun q hq => ?_, fun q hq => ?_⟩
      · rcases (ih acc).1 q hq with h | h
        · exact .inl h
        · exact .inr (CallOk_cons descs p rest q h)
      · rcases (ih acc).2 q hq with h | h
        · exact .inl h
        · exact .inr (AppliedOk_cons backend device_id descs p rest q h)
    · rcases hfind : descs.find? (fun d => d.id == p.1) with _ | desc
      · have hstep : apply_step backend device_id descs acc p = acc := by
          simp [apply_step, hparse, hfind]
        rw [hstep]
        refine ⟨fun q hq => ?_, fun q hq => ?_⟩
        · rcases (ih acc).1 q hq with h | h
          · exact .inl h
          · exact .inr (CallOk_cons descs p rest q h)
        · rcases (ih acc).2 q hq with h | h
          · exact .inl h
          · exact .inr (AppliedOk_cons backend device_id descs p rest q h)
      · cases hset : backend.set_control device_id control
            (ControlValue.new p.2 desc.min desc.max) with
        | ok u =>
          have hstep : apply_step backend device_id descs acc p =
              (acc.1 ++ [(p.1, p.2)],
               acc.2 ++ [(control, (ControlValue.new p.2 desc.min desc.max).value)]) := by
            simp [apply_step, hparse, hfind, hset]
          rw [hstep]
          refine ⟨fun q hq => ?_, fun q hq => ?_⟩
          · rcases (ih _).1 q hq with h | h
            · rcases List.mem_append.mp h with h2 | h2
              · exact .inl h2
              · simp only [List.mem_singleton] at h2
                subst h2
                exact .inr ⟨p.1, p.2, desc, List.mem_cons_self p rest,
                  hparse, hfind, rfl⟩
            · exact .inr (CallOk_cons descs p rest q h)
          · rcases (ih _).2 q hq with h | h
            · rcases List.mem_append.mp h with h2 | h2
              · exact .inl h2
              · simp only [List.mem_singleton] at h2
                subst h2
                refine .inr ⟨control, desc, ?_, hparse, hfind, ?_⟩
                · cases p
                  exact List.mem_cons_self _ rest
                · cases u
                  exact hset
            · exact .inr (AppliedOk_cons backend device_id descs p rest q h)
        | error e =>
          have hstep : apply_step backend device_id descs acc p =
              (acc.1,
               acc.2 ++ [(control, (ControlValue.new p.2 desc.min desc.max).value)]) := by
            simp [apply_step, hparse, hfind, hset]
          rw [hstep]
          refine ⟨fun q hq => ?_, fun q hq => ?_⟩
          · rcases (ih _).1 q hq with h | h
            · rcases List.mem_append.mp h with h2 | h2
              · exact .inl h2
              · simp only [List.mem_singleton] at h2
                subst h2
                exact .inr ⟨p.1, p.2, desc, List.mem_cons_self p rest,
                  hparse, hfind, rfl⟩
            · exact .inr (CallOk_cons descs p rest q h)
          · rcases (ih _).2 q hq with h | h
            · exact .inl h
            · exact .inr (AppliedOk_cons backend device_id descs p rest q h)

/-- C6: `apply_saved_settings` never calls `set_control` for a saved
control whose id string does not parse or whose descriptor is absent,
and every call carries the saved value clamped against the
descriptor's `[min,max]`; every returned pair is a saved entry whose
clamped write succeeded; on the S7 store
`{brightness: 200, unknown_ctrl: 42}` with only a brightness
`[0..255]` descriptor it returns `[("brightness",200)]` and calls
`set_control` exactly once; and an individual write failure does not
stop the remaining controls from being applied. -/
theorem C6_apply_saved_settings :
    (∀ (backend : CameraBackend) (saved : Option CameraSettings)
       (device_id : String) (q : ControlId × Int),
      q ∈ (apply_saved_settings backend saved device_id).2 →
      ∃ st descs, saved = some st ∧
        backend.get_controls device_id = .ok descs ∧
        CallOk descs st.controls q) ∧
    (∀ (backend : CameraBackend) (saved : Option CameraSettings)
       (device_id : String) (q : String × Int),
      q ∈ (apply_saved_settings backend saved device_id).1 →
      ∃ st descs, saved = some st ∧
        backend.get_controls device_id = .ok descs ∧
        AppliedOk backend device_id descs st.controls q) ∧
    (apply_saved_settings s7Backend
        (some ⟨"Cam", [("brightness", 200), ("unknown_ctrl", 42)]⟩) "dev1" =
      ([("brightness", 200)], [(ControlId.brightness, 200)])) ∧
    (apply_saved_settings failBrightnessBackend
        (some ⟨"Cam", [("brightness", 200), ("contrast", 80)]⟩) "dev1" =
      ([("contrast", 80)],
       [(ControlId.brightness, 200), (ControlId.contrast, 80)])) := by
  refine ⟨?_, ?_, by decide, by decide⟩
  · intro backend saved device_id q hq
    match hsaved : saved with
    | none => simp [apply_saved_settings, hsaved] at hq
    | some st =>
      unfold apply_saved_settings at hq
      cases hget : backend.get_controls device_id with
      | error e => rw [hget] at hq; cases hq
      | ok descs =>
        rw [hget] at hq
        rcases (apply_fold_inv backend device_id descs st.controls ([], [])).1
            q hq with h | h
        · cases h
        · exact ⟨st, descs, rfl, rfl, h⟩
  · intro backend saved device_id q hq
    match hsaved : saved with
    | none => simp [apply_saved_settings, hsaved] at hq
    | some st =>
      unfold apply_saved_settings at hq
      cases hget : backend.get_controls device_id with
      | error e => rw [hget] at hq; cases hq
      | ok descs =>
        rw [hget] at hq
        rcases (apply_fold_inv backend device_id descs st.controls ([], [])).2
            q hq with h | h
        · cases h
        · exact ⟨st, descs, rfl, rfl, h⟩

/-- C6 witness: the S7 call trace entry is legitimate — obtained by
applying the main theorem to the concrete S7 backend and store — and
the S7 result itself. -/
theorem C6_apply_saved_settings_witness :
    (∃ st descs,
      (some (⟨"Cam", [("brightness", 200), ("unknown_ctrl", 42)]⟩ :
          CameraSettings)) = some st ∧
      s7Backend.get_controls ("dev1") = .ok descs ∧
      CallOk descs st.controls (ControlId.brightness, 200)) ∧
    (apply_saved_settings s7Backend
        (some ⟨"Cam", [("brightness", 200), ("unknown_ctrl", 42)]⟩) "dev1" =
      ([("brightness", 200)], [(ControlId.brightness, 200)])) :=
  ⟨C6_apply_saved_settings.1 s7Backend
      (some ⟨"Cam", [("brightness", 200), ("unknown_ctrl", 42)]⟩) "dev1"
      (ControlId.brightness, 200) (by decide),
   C6_apply_saved_settings.2.2.1⟩

/-- Lemma: `clamp8` always produces a valid byte. -/
theorem clamp8_lt_256 (e : Int) : clamp8 e < 256 := by
  unfold clamp8
  omega

/-- Lemma: `getD` with default 0 on a byte list produces a byte. -/
theorem getD_byte_lt {l : List Nat} (hl : ∀ b ∈ l, b < 256) (i : Nat) :
    l.getD i 0 < 256 := by
  rcases Nat.lt_or_ge i l.length with hi | hi
  · rw [List.getD_eq_getElem l 0 hi]
    exact hl _ (List.getElem_mem hi)
  · rw [List.getD_eq_default l 0 hi]
    omega

/-- Row-major pixel index bound. -/
theorem rowcol_lt {i m j n : Nat} (hi : i < m) (hj : j < n) :
    i * n + j < m * n :=
  calc i * n + j < i * n + n := by omega
    _ = (i + 1) * n := by ring
    _ ≤ m * n := Nat.mul_le_mul_right n hi

/-- Length of a `flatMap` over `range` with constant inner length. -/
theorem length_flatMap_range {α : Type} (n : Nat) (f : Nat → List α)
    (L : Nat) (h : ∀ i, i < n → (f i).length = L) :
    ((List.range n).flatMap f).length = n * L := by
  induction n with
  | zero => simp
  | succ n ih =>
    rw [List.range_succ, List.flatMap_append, List.length_append,
      ih (fun i hi => h i (by omega))]
    simp only [List.flatMap_cons, List.flatMap_nil, List.append_nil]
    rw [h n (by omega)]
    ring

/-- Congruence for `flatMap`. -/
theorem flatMap_congr {α β : Type} {l : List α} {f g : α → List β}
    (h : ∀ x ∈ l, f x = g x) : l.flatMap f = l.flatMap g := by
  induction l with
  | nil => rfl
  | cons x xs ih =>
    simp only [List.flatMap_cons]
    rw [h x (List.mem_cons_self x xs),
      ih (fun y hy => h y (List.mem_cons_of_mem _ hy))]

/-- Lemma: `getD` through `take`, inside the taken region. -/
theorem getD_take (l : List Nat) (n i d : Nat) (h : i < n) :
    (l.take n).getD i d = l.getD i d := by
  simp [List.getD_eq_getElem?_getD, List.getElem?_take, h]

/-- Lemma: `getD` through `drop`. -/
theorem getD_drop (l : List Nat) (n i d : Nat) :
    (l.drop n).getD i d = l.getD (n + i) d := by
  simp [List.getD_eq_getElem?_getD, List.getElem?_drop]

/-- The BGR converter's source index stays inside the expected size. -/
theorem bgr_idx_lt {w h y x : Nat} (hy : y < h) (hx : x < w) :
    (h - 1 - y) * (w * 3) + x * 3 + 2 < w * 3 * h := by
  have h1 : h - 1 - y + 1 ≤ h := by omega
  have h2 : x * 3 + 2 < w * 3 := by omega
  calc (h - 1 - y) * (w * 3) + x * 3 + 2
      = (h - 1 - y) * (w * 3) + (x * 3 + 2) := by omega
    _ < (h - 1 - y) * (w * 3) + w * 3 := Nat.add_lt_add_left h2 _
    _ = (h - 1 - y + 1) * (w * 3) := by ring
    _ ≤ h * (w * 3) := Nat.mul_le_mul_right _ h1
    _ = w * 3 * h := by ring

/-- The BGR converter succeeds on any input of at least the expected
size, producing `w*h*3` bytes drawn from the input. -/
theorem bgr_ok (w h : Nat) (bgr : List Nat) (hlen : w * h * 3 ≤ bgr.length)
    (hbytes : ∀ b ∈ bgr, b < 256) :
    ∃ out, convert_bgr_bottom_up_to_rgb bgr w h = some out ∧
      out.length = w * h * 3 ∧ ∀ b ∈ out, b < 256 := by
  have hcomm : w * 3 * h = w * h * 3 := by ring
  unfold convert_bgr_bottom_up_to_rgb
  rw [if_neg (by omega)]
  rw [if_pos]
  · refine ⟨_, rfl, ?_, ?_⟩
    · rw [show w * h * 3 = h * (w * 3) by ring]
      apply length_flatMap_range
      intro y hy
      rw [show w * 3 = w * 3 from rfl]
      apply length_flatMap_range
      intro x hx
      rfl
    · intro b hb
      rw [List.mem_flatMap] at hb
      obtain ⟨y, _, hb⟩ := hb
      rw [List.mem_flatMap] at hb
      obtain ⟨x, _, hb⟩ := hb
      simp only [List.mem_cons, List.not_mem_nil, or_false] at hb
      rcases hb with rfl | rfl | rfl <;> exact getD_byte_lt hbytes _
  · rw [List.all_eq_true]
    intro y hy
    rw [List.all_eq_true]
    intro x hx
    rw [decide_eq_true_eq]
    rw [List.mem_range] at hy hx
    calc (h - 1 - y) * (w * 3) + x * 3 + 2 < w * 3 * h := bgr_idx_lt hy hx
      _ ≤ bgr.length := by omega

/-- The YUY2 converter succeeds on any input of at least the expected
size, producing `w*h*3` valid bytes. -/
theorem yuy2_ok (w h : Nat) (yuy2 : List Nat)
    (hlen : w * h * 2 ≤ yuy2.length) :
    ∃ out, convert_yuy2_to_rgb yuy2 w h = some out ∧
      out.length = w * h * 3 ∧ ∀ b ∈ out, b < 256 := by
  by_cases hz : w = 0 ∨ h = 0
  · refine ⟨[], ?_, ?_, by simp⟩
    · unfold convert_yuy2_to_rgb
      rw [if_pos (Or.inr hz)]
    · rcases hz with rfl | rfl <;> simp
  · push_neg at hz
    unfold convert_yuy2_to_rgb
    rw [if_neg (by omega), if_pos]
    · refine ⟨_, rfl, ?_, ?_⟩
      · have h6 : ((List.range (w * h / 2)).flatMap (fun i =>
            let y0 : Int := yuy2.getD (i * 4) 0
            let u : Int := (yuy2.getD (i * 4 + 1) 0 : Int) - 128
            let y1 : Int := yuy2.getD (i * 4 + 2) 0
            let v : Int := (yuy2.getD (i * 4 + 3) 0 : Int) - 128
            [clamp8 (yuvR y0 v), clamp8 (yuvG y0 u v), clamp8 (yuvB y0 u),
             clamp8 (yuvR y1 v), clamp8 (yuvG y1 u v),
             clamp8 (yuvB y1 u)])).length = w * h / 2 * 6 := by
          apply length_flatMap_range
          intro i hi
          rfl
        rw [List.length_append, List.length_replicate, h6]
        omega
      · intro b hb
        rw [List.mem_append] at hb
        rcases hb with hb | hb
        · rw [List.mem_flatMap] at hb
          obtain ⟨i, _, hb⟩ := hb
          simp only [List.mem_cons, List.not_mem_nil, or_false] at hb
          rcases hb with rfl | rfl | rfl | rfl | rfl | rfl <;>
            exact clamp8_lt_256 _
        · rw [List.eq_of_mem_replicate hb]
          omega
    · rw [List.all_eq_true]
      intro i hi
      rw [decide_eq_true_eq]
      rw [List.mem_range] at hi
      omega

/-- The NV12 converter's UV index bound for even dimensions. -/
theorem nv12_uv_bound (a b row col : Nat) (hrow : row < 2 * b)
    (hcol : col < 2 * a) :
    row / 2 * (2 * a) + col / 2 * 2 + 1 < 2 * (a * b) := by
  have hr2 : row / 2 ≤ b - 1 := by omega
  have h1 : row / 2 * (2 * a) ≤ (b - 1) * (2 * a) :=
    Nat.mul_le_mul_right _ hr2
  have h2 : (b - 1) * (2 * a) + 2 * a = b * (2 * a) := by
    obtain ⟨b0, rfl⟩ : ∃ b0, b = b0 + 1 := ⟨b - 1, by omega⟩
    simp only [Nat.add_sub_cancel]
    ring
  have h3 : b * (2 * a) = 2 * (a * b) := by ring
  have hc3 : col / 2 * 2 + 1 < 2 * a := by omega
  linarith

/-- The NV12 converter on even dimensions `2a x 2b` with enough input
equals the flat map of the spec's per-pixel formula. -/
theorem nv12_ok (a b : Nat) (nv12 : List Nat)
    (hlen : 2 * a * (2 * b) * 3 / 2 ≤ nv12.length) :
    convert_nv12_to_rgb nv12 (2 * a) (2 * b) =
      some ((List.range (2 * b)).flatMap (fun row =>
        (List.range (2 * a)).flatMap (fun col =>
          nv12SpecPixel nv12 (2 * a) (2 * b) row col))) := by
  by_cases hz : a = 0 ∨ b = 0
  · have hguard : nv12.length < 2 * a * (2 * b) * 3 / 2 ∨
        2 * a = 0 ∨ 2 * b = 0 := by
      rcases hz with rfl | rfl
      · exact Or.inr (Or.inl rfl)
      · exact Or.inr (Or.inr rfl)
    unfold convert_nv12_to_rgb
    rw [if_pos hguard]
    rcases hz with rfl | rfl
    · simp
    · simp
  · push_neg at hz
    have hP : 2 * a * (2 * b) = 4 * (a * b) := by ring
    have hyLen : (nv12.take (2 * a * (2 * b))).length = 2 * a * (2 * b) := by
      rw [List.length_take]
      omega
    have huvLen : (nv12.drop (2 * a * (2 * b))).length =
        nv12.length - 2 * a * (2 * b) := List.length_drop _ _
    unfold convert_nv12_to_rgb
    rw [if_neg (by omega), if_pos]
    · refine congrArg some ?_
      apply flatMap_congr
      intro row hrow
      apply flatMap_congr
      intro col hcol
      rw [List.mem_range] at hrow hcol
      have hyidx : row * (2 * a) + col < 2 * a * (2 * b) := by
        have := rowcol_lt hrow hcol
        calc row * (2 * a) + col < 2 * b * (2 * a) := this
          _ = 2 * a * (2 * b) := by ring
      unfold nv12SpecPixel
      rw [getD_take _ _ _ _ hyidx, getD_drop, getD_drop]
    · rw [List.all_eq_true]
      intro row hrow
      rw [List.all_eq_true]
      intro col hcol
      rw [decide_eq_true_eq]
      rw [List.mem_range] at hrow hcol
      constructor
      · rw [hyLen]
        calc row * (2 * a) + col < 2 * b * (2 * a) := rowcol_lt hrow hcol
          _ = 2 * a * (2 * b) := by ring
      · rw [huvLen]
        have hb := nv12_uv_bound a b row col hrow hcol
        omega

/-- The NV12 converter's early return: undersized input or a zero
dimension yields the empty vector. -/
theorem nv12_empty (w h : Nat) (nv12 : List Nat)
    (hcond : nv12.length < w * h * 3 / 2 ∨ w = 0 ∨ h = 0) :
    convert_nv12_to_rgb nv12 w h = some [] := by
  unfold convert_nv12_to_rgb
  rw [if_pos hcond]

/-- C1 counterexample: the claim quantifies over every width and
height, but `convert_nv12_to_rgb` on the 1x1 input of exactly the
expected size `1*1*3/2 = 1` reads `uv_plane[1]` out of bounds — a Rust
index panic (`none`), not a `W*H*3`-byte result. -/
theorem C1_counterexample :
    ([0] : List Nat).length = 1 * 1 * 3 / 2 ∧
    convert_nv12_to_rgb [0] 1 1 = none := by
  decide

/-- C1 (amended): on input of the correct size each converter performs
no out-of-bounds access, returns exactly `W*H*3` valid bytes — for the
NV12 converter provided both dimensions are even (odd dimensions panic,
see the counterexample) — and the fixed-point `(<<8)` expressions stay
within the `i32` range `[-2147483648, 2147483648)` for all in-range
`Y`, `U`, `V`. -/
theorem C1_converters_safe (w h : Nat) (bgr yuy2 nv12 : List Nat)
    (hbgr : bgr.length = w * h * 3) (hbgrB : ∀ b ∈ bgr, b < 256)
    (hyuy2 : yuy2.length = w * h * 2)
    (hnv12 : nv12.length = w * h * 3 / 2) :
    (∃ out, convert_bgr_bottom_up_to_rgb bgr w h = some out ∧
      out.length = w * h * 3 ∧ ∀ b ∈ out, b < 256) ∧
    (∃ out, convert_yuy2_to_rgb yuy2 w h = some out ∧
      out.length = w * h * 3 ∧ ∀ b ∈ out, b < 256) ∧
    (w % 2 = 0 → h % 2 = 0 →
      ∃ out, convert_nv12_to_rgb nv12 w h = some out ∧
        out.length = w * h * 3 ∧ ∀ b ∈ out, b < 256) ∧
    (∀ y u v : Int, 0 ≤ y → y ≤ 255 → -128 ≤ u → u ≤ 127 →
      -128 ≤ v → v ≤ 127 →
      (-2147483648 ≤ yuvR y v ∧ yuvR y v < 2147483648) ∧
      (-2147483648 ≤ yuvG y u v ∧ yuvG y u v < 2147483648) ∧
      (-2147483648 ≤ yuvB y u ∧ yuvB y u < 2147483648)) := by
  refine ⟨bgr_ok w h bgr (by omega) hbgrB, yuy2_ok w h yuy2 (by omega),
    ?_, ?_⟩
  · intro hw hh
    obtain ⟨a, rfl⟩ : ∃ a, w = 2 * a := ⟨w / 2, by omega⟩
    obtain ⟨b, rfl⟩ : ∃ b, h = 2 * b := ⟨h / 2, by omega⟩
    refine ⟨_, nv12_ok a b nv12 (by omega), ?_, ?_⟩
    · rw [show 2 * a * (2 * b) * 3 = 2 * b * (2 * a * 3) by ring]
      apply length_flatMap_range
      intro row hrow
      apply length_flatMap_range
      intro col hcol
      rfl
    · intro byte hb
      rw [List.mem_flatMap] at hb
      obtain ⟨row, _, hb⟩ := hb
      rw [List.mem_flatMap] at hb
      obtain ⟨col, _, hb⟩ := hb
      unfold nv12SpecPixel at hb
      simp only [List.mem_cons, List.not_mem_nil, or_false] at hb
      rcases hb with rfl | rfl | rfl <;> exact clamp8_lt_256 _
  · intro y u v h1 h2 h3 h4 h5 h6
    unfold yuvR yuvG yuvB
    refine ⟨⟨by omega, by omega⟩, ⟨by omega, by omega⟩, by omega, by omega⟩

/-- C1 witness: the amended nv12 clause at the concrete 2x2 S4 input
(with matching BGR and YUY2 buffers). -/
theorem C1_converters_safe_witness :
    ∃ out, convert_nv12_to_rgb [200, 200, 200, 200, 128, 128] 2 2 =
        some out ∧ out.length = 2 * 2 * 3 ∧ ∀ b ∈ out, b < 256 :=
  (C1_converters_safe 2 2 (List.replicate 12 0) (List.replicate 8 128)
      [200, 200, 200, 200, 128, 128] (by decide) (by decide) (by decide)
      (by decide)).2.2.1 (by decide) (by decide)

/-- C2 counterexample: the claim quantifies over every positive `W`,
`H` and any input of at least `W*H*3/2` bytes; at `W = H = 1` with the
2-byte input `[0,0]` (`2 >= 1`), the converter reads `uv_plane[1]` out
of bounds and panics (`none`) instead of producing the per-pixel
triples. -/
theorem C2_counterexample :
    1 * 1 * 3 / 2 ≤ ([0, 0] : List Nat).length ∧
    convert_nv12_to_rgb [0, 0] 1 1 = none := by
  decide

/-- C2 (amended): for even dimensions, on input of at least
`W*H*3/2` bytes the NV12 converter produces, for each pixel
`(row,col)` in row-major order, exactly the RGB triple given by the
spec's formula (`nv12SpecPixel`, written from the spec text); it
returns the empty vector on undersized input or zero dimensions; and
the 2x2 uniform block S4 yields twelve bytes equal to 200. -/
theorem C2_nv12_functional (w h : Nat) (nv12 : List Nat)
    (hw : w % 2 = 0) (hh : h % 2 = 0) :
    (w * h * 3 / 2 ≤ nv12.length →
      convert_nv12_to_rgb nv12 w h =
        some ((List.range h).flatMap (fun row =>
          (List.range w).flatMap (fun col =>
            nv12SpecPixel nv12 w h row col)))) ∧
    (nv12.length < w * h * 3 / 2 ∨ w = 0 ∨ h = 0 →
      convert_nv12_to_rgb nv12 w h = some []) ∧
    convert_nv12_to_rgb [200, 200, 200, 200, 128, 128] 2 2 =
      some (List.replicate 12 200) := by
  obtain ⟨a, rfl⟩ : ∃ a, w = 2 * a := ⟨w / 2, by omega⟩
  obtain ⟨b, rfl⟩ : ∃ b, h = 2 * b := ⟨h / 2, by omega⟩
  exact ⟨fun hlen => nv12_ok a b nv12 hlen,
    fun hc => nv12_empty _ _ _ hc, by decide⟩

/-- C2 witness: the S4 block, via the per-pixel spec formula. -/
theorem C2_nv12_functional_witness :
    convert_nv12_to_rgb [200, 200, 200, 200, 128, 128] 2 2 =
      some ((List.range 2).flatMap (fun row =>
        (List.range 2).flatMap (fun col =>
          nv12SpecPixel [200, 200, 200, 200, 128, 128] 2 2 row col))) :=
  (C2_nv12_functional 2 2 [200, 200, 200, 200, 128, 128]
      (by decide) (by decide)).1 (by decide)
